import Mathlib

/-!
Shallow embedding of the parallel execution benchmarking engine of
`src/parallel_executor.py` (classes `ForkExecutor`, `ThreadExecutor`,
`SubshellExecutor`, `ParallelExecutor`, and the CLI entry `main`).

Modelling conventions:
* Python floats are modelled as `ℚ` (exact rationals); `math`-level square
  roots inside `statistics.stdev` are modelled by an explicit parameter
  `sqrtA : ℚ → ℚ`, since no claim depends on the numeric value of a square
  root (only on the branch `stdev = 0` when at most one sample exists).
* The nondeterministic behaviour of `subprocess.run` in each iteration
  (completion with a return code, a `TimeoutExpired`, or another exception)
  is an explicit per-iteration environment value fed to the executor.
* Durations measured with `time.time()` are carried by the environment.
-/

/-- Outcome of one `subprocess.run` call inside a forked child
(`ForkExecutor.execute_with_fork`, child branch), together with the two
parent-side failure modes (`WIFEXITED` false, and `os.waitpid` raising
`OSError`). -/
inductive ForkBeh where
  /-- Models `subprocess.run` completed; the child calls `os._exit(returncode)`. -/
  | completed (returncode : Int)
  /-- Models `subprocess.run` raised `TimeoutExpired`; the child calls `os._exit(124)`. -/
  | timedOut
  /-- Models `subprocess.run` raised another exception; the child calls `os._exit(1)`. -/
  | exnRaised (msg : String)
  /-- the child did not terminate normally (`os.WIFEXITED(status)` false). -/
  | killedBySignal
  /-- Models `os.waitpid` in the parent raised `OSError`. -/
  | waitOSError (msg : String)
  deriving DecidableEq, Repr

/-- Environment of one fork iteration: the child pid returned by `os.fork`,
the elapsed wall time observed by the parent, and what happened. -/
structure ForkEnv where
  pid : Nat
  duration : ℚ
  beh : ForkBeh
  deriving DecidableEq, Repr

/-- One record appended to `results` in `ForkExecutor.execute_with_fork`. -/
structure ForkIterResult where
  iteration : Nat
  execution_time : ℚ
  child_pid : Nat
  exit_status : Int
  success : Bool
  error : Option String
  deriving DecidableEq, Repr

/-- The parent-side record for iteration index `i` (0-based; the source
stores `i + 1`).  `os._exit(n)` makes the child exit status `n mod 256`,
which is what `os.WEXITSTATUS` reports; `success` is
`os.WIFEXITED(status) and os.WEXITSTATUS(status) == 0`. -/
def forkIteration (i : Nat) (e : ForkEnv) : ForkIterResult :=
  match e.beh with
  | .completed rc =>
      { iteration := i + 1, execution_time := e.duration, child_pid := e.pid,
        exit_status := rc % 256, success := rc % 256 = 0, error := none }
  | .timedOut =>
      { iteration := i + 1, execution_time := e.duration, child_pid := e.pid,
        exit_status := 124, success := false, error := none }
  | .exnRaised _ =>
      { iteration := i + 1, execution_time := e.duration, child_pid := e.pid,
        exit_status := 1, success := false, error := none }
  | .killedBySignal =>
      { iteration := i + 1, execution_time := e.duration, child_pid := e.pid,
        exit_status := -1, success := false, error := none }
  | .waitOSError msg =>
      { iteration := i + 1, execution_time := e.duration, child_pid := e.pid,
        exit_status := -1, success := false, error := some msg }

/-- The `for i in range(iterations)` loop of `execute_with_fork`, carrying
the 0-based index. -/
def forkResultsAux (i : Nat) : List ForkEnv → List ForkIterResult
  | [] => []
  | e :: es => forkIteration i e :: forkResultsAux (i + 1) es

/-- Minimum of a nonempty Python list (`min(execution_times)`); 0 on `[]`
(never reached by the analyzers, which substitute `[0.0]` first). -/
def listMinQ : List ℚ → ℚ
  | [] => 0
  | x :: xs => xs.foldl min x

/-- Maximum of a nonempty Python list (`max(execution_times)`). -/
def listMaxQ : List ℚ → ℚ
  | [] => 0
  | x :: xs => xs.foldl max x

/-- Models `statistics.mean`. -/
def meanQ (l : List ℚ) : ℚ := l.sum / l.length

/-- Models `statistics.median`: sort, take the middle element (odd length) or the
average of the two middle elements (even length). -/
def medianQ (l : List ℚ) : ℚ :=
  let s := l.insertionSort (· ≤ ·)
  let n := l.length
  if n % 2 = 1 then s.getD (n / 2) 0
  else (s.getD (n / 2 - 1) 0 + s.getD (n / 2) 0) / 2

/-- The radicand of `statistics.stdev`: sample variance with divisor
`n - 1` (only used when `n > 1`). -/
def sampleVarQ (l : List ℚ) : ℚ :=
  (l.map (fun x => (x - meanQ l) ^ 2)).sum / ((l.length : ℚ) - 1)

/-- The `execution_times` dictionary every analyzer builds. -/
structure AggregateStats where
  values : List ℚ
  mean : ℚ
  median : ℚ
  stdev : ℚ
  min : ℚ
  max : ℚ
  deriving DecidableEq, Repr

/-- Shared shape of the three analyzers: substitute `[0.0]` when no
iteration succeeded, then compute the statistics; `stdev` is
`statistics.stdev(execution_times) if len(execution_times) > 1 else 0`. -/
def aggStats (sqrtA : ℚ → ℚ) (times0 : List ℚ) : AggregateStats :=
  let times := if times0.isEmpty then [0] else times0
  { values := times, mean := meanQ times, median := medianQ times,
    stdev := if times.length > 1 then sqrtA (sampleVarQ times) else 0,
    min := listMinQ times, max := listMaxQ times }

/-- Models `ForkExecutor._calculate_fork_efficiency`. -/
structure ForkEff where
  success_rate : ℚ
  failure_rate : ℚ
  average_processes : Nat
  process_creation_efficiency : ℚ
  deriving DecidableEq, Repr

/-- Models `ForkExecutor._calculate_fork_efficiency`: success and failure ratios
over all iterations, with 0 on an empty result list. -/
def calculate_fork_efficiency (results : List ForkIterResult) : ForkEff :=
  let successful_runs := results.filter (·.success)
  let failed_runs := results.filter (fun r => !r.success)
  { success_rate :=
      if results.isEmpty then 0 else (successful_runs.length : ℚ) / results.length,
    failure_rate :=
      if results.isEmpty then 0 else (failed_runs.length : ℚ) / results.length,
    average_processes := results.length,
    process_creation_efficiency :=
      if results.isEmpty then 0 else (successful_runs.length : ℚ) / results.length }

/-- The dictionary returned by `ForkExecutor._analyze_fork_results`. -/
structure ForkResult where
  execution_type : String
  total_iterations : Nat
  successful_iterations : Nat
  failed_iterations : Nat
  execution_times : AggregateStats
  process_metrics : List ForkIterResult
  parallel_efficiency : ForkEff
  deriving DecidableEq, Repr

/-- Models `ForkExecutor._analyze_fork_results`. -/
def analyze_fork_results (sqrtA : ℚ → ℚ) (results : List ForkIterResult) : ForkResult :=
  let successful_results := results.filter (·.success)
  { execution_type := "fork",
    total_iterations := results.length,
    successful_iterations := successful_results.length,
    failed_iterations := results.length - successful_results.length,
    execution_times := aggStats sqrtA (successful_results.map (·.execution_time)),
    process_metrics := results,
    parallel_efficiency := calculate_fork_efficiency results }

/-- Models `ForkExecutor.execute_with_fork`: run the per-iteration loop over the
given environments (one per requested iteration) and analyze. -/
def execute_with_fork (sqrtA : ℚ → ℚ) (envs : List ForkEnv) : ForkResult :=
  analyze_fork_results sqrtA (forkResultsAux 0 envs)

theorem forkResultsAux_length (i : Nat) (envs : List ForkEnv) :
    (forkResultsAux i envs).length = envs.length := by
  induction envs generalizing i with
  | nil => rfl
  | cons e es ih => simp [forkResultsAux, ih]

theorem forkResultsAux_getElem? (i j : Nat) (envs : List ForkEnv) :
    (forkResultsAux i envs)[j]? = envs[j]?.map (fun e => forkIteration (i + j) e) := by
  induction envs generalizing i j with
  | nil => simp [forkResultsAux]
  | cons e es ih =>
      cases j with
      | zero => simp [forkResultsAux]
      | succ j =>
          have h : i + 1 + j = i + (j + 1) := by omega
          simp only [forkResultsAux, List.getElem?_cons_succ, ih, h]

/-- Outcome of the `subprocess.run` call inside
`ThreadExecutor.execute_with_threads.run_single_iteration`. -/
inductive ThreadBeh where
  /-- Models `subprocess.run` completed with `returncode` and captured stderr. -/
  | completed (returncode : Int) (stderr : String)
  /-- Models `subprocess.run` raised `TimeoutExpired`. -/
  | timedOut
  /-- Models `subprocess.run` raised another exception. -/
  | exnRaised (msg : String)
  deriving DecidableEq, Repr

/-- Environment of one unit of work submitted to the thread pool: the
1-based iteration number it was submitted with, the identity of the worker
thread that ran it (`threading.get_ident()`), the elapsed wall time it
observed, and the subprocess outcome.  The list of tasks handed to the
executor model is in completion order, which for the pool need not match
submission order. -/
structure ThreadTask where
  iteration : Nat
  thread_id : Nat
  duration : ℚ
  beh : ThreadBeh
  deriving DecidableEq, Repr

/-- One record appended (under `results_lock`) to `results` in
`run_single_iteration`. -/
structure ThreadIterResult where
  iteration : Nat
  thread_id : Nat
  execution_time : ℚ
  return_code : Int
  success : Bool
  stderr : Option String
  error : Option String
  deriving DecidableEq, Repr

/-- Models `run_single_iteration`: build the per-iteration record; on completion
`success` is `returncode == 0` and stderr is kept (truncated to 200
characters) only when the return code is nonzero and stderr is nonempty;
a timeout records return code `124`, any other exception records `-1`. -/
def threadIteration (t : ThreadTask) : ThreadIterResult :=
  match t.beh with
  | .completed rc stderrText =>
      { iteration := t.iteration, thread_id := t.thread_id,
        execution_time := t.duration, return_code := rc, success := rc = 0,
        stderr := if rc ≠ 0 ∧ stderrText ≠ "" then some (stderrText.take 200) else none,
        error := none }
  | .timedOut =>
      { iteration := t.iteration, thread_id := t.thread_id,
        execution_time := t.duration, return_code := 124, success := false,
        stderr := none, error := some "timeout" }
  | .exnRaised msg =>
      { iteration := t.iteration, thread_id := t.thread_id,
        execution_time := t.duration, return_code := -1, success := false,
        stderr := none, error := some msg }

/-- Models `ThreadExecutor._calculate_thread_efficiency`: 0 when nothing succeeded
or the wall clock is non-positive; otherwise the summed successful
durations over `total_time * threads_used`, capped at 1. -/
def calculate_thread_efficiency (results : List ThreadIterResult) (total_time : ℚ) : ℚ :=
  let successful_results := results.filter (·.success)
  if successful_results.isEmpty ∨ total_time ≤ 0 then 0
  else
    let sequential_time := (successful_results.map (·.execution_time)).sum
    let threads_used := ((results.map (·.thread_id)).dedup).length
    let theoretical_parallel_time := total_time * threads_used
    let efficiency :=
      if theoretical_parallel_time > 0 then sequential_time / theoretical_parallel_time else 0
    min efficiency 1

/-- The `concurrency_analysis` dictionary of
`ThreadExecutor._analyze_thread_results`. -/
structure ConcurrencyAnalysis where
  total_threads : Nat
  success_rate : ℚ
  average_execution_time : ℚ
  thread_efficiency : ℚ
  actual_parallelism : ℚ
  parallel_overhead : ℚ
  deriving DecidableEq, Repr

/-- The dictionary returned by `ThreadExecutor._analyze_thread_results`. -/
structure ThreadResult where
  execution_type : String
  total_iterations : Nat
  successful_iterations : Nat
  failed_iterations : Nat
  unique_threads_used : Nat
  execution_times : AggregateStats
  thread_metrics : List ThreadIterResult
  concurrency_analysis : ConcurrencyAnalysis
  deriving DecidableEq, Repr

/-- Models `ThreadExecutor._analyze_thread_results`.  The source has an early
all-zero branch for an empty result list (its `parallel_overhead` key is
absent there; the model uses 0).  Otherwise: filter the successes,
substitute `[0.0]` when none, count distinct worker identities, and set
`actual_parallelism` to summed-successful-durations over wall time when
some iteration succeeded (1.0 when the wall time is 0), else 0. -/
def analyze_thread_results (sqrtA : ℚ → ℚ) (results : List ThreadIterResult)
    (total_time : ℚ) : ThreadResult :=
  if results.isEmpty then
    { execution_type := "thread", total_iterations := 0,
      successful_iterations := 0, failed_iterations := 0,
      unique_threads_used := 0,
      execution_times :=
        { values := [0], mean := 0, median := 0, stdev := 0, min := 0, max := 0 },
      thread_metrics := [],
      concurrency_analysis :=
        { total_threads := 0, success_rate := 0, average_execution_time := 0,
          thread_efficiency := 0, actual_parallelism := 0, parallel_overhead := 0 } }
  else
    let successful_results := results.filter (·.success)
    let execution_times0 := successful_results.map (·.execution_time)
    let execution_times := if execution_times0.isEmpty then [0] else execution_times0
    let unique_threads := ((results.map (·.thread_id)).dedup).length
    let actual_parallelism :=
      if !successful_results.isEmpty then
        (if total_time > 0 then execution_times.sum / total_time else 1)
      else 0
    { execution_type := "thread",
      total_iterations := results.length,
      successful_iterations := successful_results.length,
      failed_iterations := results.length - successful_results.length,
      unique_threads_used := unique_threads,
      execution_times := aggStats sqrtA execution_times0,
      thread_metrics := results,
      concurrency_analysis :=
        { total_threads := unique_threads,
          success_rate := (successful_results.length : ℚ) / results.length,
          average_execution_time :=
            if execution_times.isEmpty then 0 else meanQ execution_times,
          thread_efficiency := calculate_thread_efficiency results total_time,
          actual_parallelism := actual_parallelism,
          parallel_overhead :=
            total_time - (if execution_times.isEmpty then 0 else listMaxQ execution_times) } }

/-- Models `ThreadExecutor.execute_with_threads`: every submitted unit of work
appends exactly one record before the pool shuts down (the `with` block
waits for all workers), so the analyzed list has one entry per task; the
wall-clock `total_time` spans the whole pool run. -/
def execute_with_threads (sqrtA : ℚ → ℚ) (tasks : List ThreadTask)
    (total_time : ℚ) : ThreadResult :=
  analyze_thread_results sqrtA (tasks.map threadIteration) total_time

/-- Outcome of the `subprocess.run` call of one subshell iteration
(`SubshellExecutor.execute_with_subshells`; the command is run directly,
`shell=False` — the parenthesized `subshell_command` string is built but
never used). -/
inductive SubshellBeh where
  /-- Models `subprocess.run` completed with `returncode` after `duration`. -/
  | completed (returncode : Int) (duration : ℚ)
  /-- Models `subprocess.run` raised `TimeoutExpired`; recorded with a flat
  execution time of 10.0 seconds. -/
  | timedOut
  /-- Models `subprocess.run` raised another exception; recorded with execution
  time 0.0. -/
  | exnRaised (msg : String)
  deriving DecidableEq, Repr

/-- One record appended to `results` in `execute_with_subshells`. -/
structure SubshellIterResult where
  iteration : Nat
  execution_time : ℚ
  return_code : Int
  success : Bool
  error : Option String
  deriving DecidableEq, Repr

/-- The body of the subshell loop for 0-based index `i`.  A timeout records
`return_code = -1` (not the sentinel 124) with error text `timeout`. -/
def subshellIteration (i : Nat) (b : SubshellBeh) : SubshellIterResult :=
  match b with
  | .completed rc d =>
      { iteration := i + 1, execution_time := d, return_code := rc,
        success := rc = 0, error := none }
  | .timedOut =>
      { iteration := i + 1, execution_time := 10, return_code := -1,
        success := false, error := some "timeout" }
  | .exnRaised msg =>
      { iteration := i + 1, execution_time := 0, return_code := -1,
        success := false, error := some msg }

/-- The `for i in range(iterations)` loop of `execute_with_subshells`. -/
def subshellResultsAux (i : Nat) : List SubshellBeh → List SubshellIterResult
  | [] => []
  | b :: bs => subshellIteration i b :: subshellResultsAux (i + 1) bs

/-- Models `SubshellExecutor._analyze_subshell_isolation`. -/
structure IsolationAnalysis where
  success_rate : ℚ
  average_execution_time : ℚ
  isolation_efficiency : ℚ
  deriving DecidableEq, Repr

/-- Models `SubshellExecutor._analyze_subshell_isolation`: ratios over all
iterations (0 on empty), and the mean of the successful execution times
(0 when none succeeded). -/
def analyze_subshell_isolation (results : List SubshellIterResult) : IsolationAnalysis :=
  let successful_results := results.filter (·.success)
  { success_rate :=
      if results.isEmpty then 0 else (successful_results.length : ℚ) / results.length,
    average_execution_time :=
      if successful_results.isEmpty then 0
      else meanQ (successful_results.map (·.execution_time)),
    isolation_efficiency :=
      if results.isEmpty then 0 else (successful_results.length : ℚ) / results.length }

/-- The dictionary returned by `SubshellExecutor._analyze_subshell_results`. -/
structure SubshellResult where
  execution_type : String
  total_iterations : Nat
  successful_iterations : Nat
  failed_iterations : Nat
  execution_times : AggregateStats
  subshell_metrics : List SubshellIterResult
  isolation_analysis : IsolationAnalysis
  deriving DecidableEq, Repr

/-- Models `SubshellExecutor._analyze_subshell_results`. -/
def analyze_subshell_results (sqrtA : ℚ → ℚ) (results : List SubshellIterResult) : SubshellResult :=
  let successful_results := results.filter (·.success)
  { execution_type := "subshell",
    total_iterations := results.length,
    successful_iterations := successful_results.length,
    failed_iterations := results.length - successful_results.length,
    execution_times := aggStats sqrtA (successful_results.map (·.execution_time)),
    subshell_metrics := results,
    isolation_analysis := analyze_subshell_isolation results }

/-- Models `SubshellExecutor.execute_with_subshells`. -/
def execute_with_subshells (sqrtA : ℚ → ℚ) (behs : List SubshellBeh) : SubshellResult :=
  analyze_subshell_results sqrtA (subshellResultsAux 0 behs)

theorem subshellResultsAux_length (i : Nat) (behs : List SubshellBeh) :
    (subshellResultsAux i behs).length = behs.length := by
  induction behs generalizing i with
  | nil => rfl
  | cons b bs ih => simp [subshellResultsAux, ih]

theorem subshellResultsAux_getElem? (i j : Nat) (behs : List SubshellBeh) :
    (subshellResultsAux i behs)[j]? = behs[j]?.map (fun b => subshellIteration (i + j) b) := by
  induction behs generalizing i j with
  | nil => simp [subshellResultsAux]
  | cons b bs ih =>
      cases j with
      | zero => simp [subshellResultsAux]
      | succ j =>
          have h : i + 1 + j = i + (j + 1) := by omega
          simp only [subshellResultsAux, List.getElem?_cons_succ, ih, h]

/-- Outcome of the single pre-flight `subprocess.run` in
`ParallelExecutor._test_command_optimized`. -/
inductive PreflightOutcome where
  /-- the command completed within the short timeout. -/
  | completed (returncode : Int)
  /-- Models `TimeoutExpired`: the command ran but did not finish quickly. -/
  | timedOut
  /-- Models `FileNotFoundError` or `OSError`: the command could not be spawned. -/
  | spawnFailure (msg : String)
  /-- any other exception. -/
  | otherExn (msg : String)
  deriving DecidableEq, Repr

/-- Models `ParallelExecutor._test_command_optimized`: only a spawn failure
(`FileNotFoundError` / `OSError`) makes the pre-flight fail; a completed
run, a timeout, and any other exception all pass. -/
def test_command_optimized (o : PreflightOutcome) : Bool :=
  match o with
  | .completed _ => true
  | .timedOut => true
  | .spawnFailure _ => false
  | .otherExn _ => true

/-- Whether the pre-flight outcome is the fatal spawn-failure case. -/
def PreflightOutcome.isSpawnFailure : PreflightOutcome → Bool
  | .spawnFailure _ => true
  | _ => false

/-- The strategy result carried by a successful `ParallelExecutor.execute`. -/
inductive StrategyOutput where
  | fork (r : ForkResult)
  | thread (r : ThreadResult)
  | subshell (r : SubshellResult)
  deriving DecidableEq, Repr

/-- Environment of one `ParallelExecutor.execute` call: the pre-flight
outcome and the per-strategy iteration environments (only the list matching
the dispatched strategy is consumed).  `warmupTasks` is the environment of
the unmeasured one-iteration warm-up pass run for the thread strategy when
`iterations > 1`; `threadTotalTime` is the wall clock of the measured
thread pool run. -/
structure ExecEnv where
  preflight : PreflightOutcome
  warmupTasks : List ThreadTask
  forkEnvs : List ForkEnv
  threadTasks : List ThreadTask
  threadTotalTime : ℚ
  subshellBehs : List SubshellBeh
  deriving Repr

/-- Observable trace of one `ParallelExecutor.execute` call:
how many times the resolved command was spawned in total (pre-flight,
warm-up and measured iterations), how many measured iterations ran, the
outcome (the exception message, or the strategy result), and whether
`_save_results` persisted a result. -/
structure ExecTrace where
  commandRuns : Nat
  measuredIterations : Nat
  outcome : Except String StrategyOutput
  saved : Bool

/-- Whether an `execute` outcome is a raised exception. -/
def ExecTrace.raised (t : ExecTrace) : Bool :=
  match t.outcome with
  | .error _ => true
  | .ok _ => false

/-- Models `ParallelExecutor.execute`, as a trace-producing function of the
environment.  Source order: the pre-flight runs first (executing the
resolved command once unless the spawn itself failed) and raises on a
spawn failure; then the dispatch on `execution_type` runs the chosen
strategy over `iterations` iterations — with, for the thread strategy and
`iterations > 1`, one extra unmeasured warm-up pass of a single iteration
whose errors are swallowed; an unrecognized `execution_type` raises
`ValueError` after the pre-flight; on success the merged result is saved. -/
def ParallelExecutor.execute (execution_type : String) (iterations : Nat)
    (env : ExecEnv) (sqrtA : ℚ → ℚ) : ExecTrace :=
  if test_command_optimized env.preflight then
    if execution_type = "fork" then
      { commandRuns := 1 + iterations, measuredIterations := iterations,
        outcome := .ok (.fork (execute_with_fork sqrtA env.forkEnvs)),
        saved := true }
    else if execution_type = "thread" then
      let warmupRuns := if iterations > 1 then 1 else 0
      { commandRuns := 1 + warmupRuns + iterations, measuredIterations := iterations,
        outcome := .ok (.thread (execute_with_threads sqrtA env.threadTasks env.threadTotalTime)),
        saved := true }
    else if execution_type = "subshell" then
      { commandRuns := 1 + iterations, measuredIterations := iterations,
        outcome := .ok (.subshell (execute_with_subshells sqrtA env.subshellBehs)),
        saved := true }
    else
      { commandRuns := 1, measuredIterations := 0,
        outcome := .error ("Type d\x27exécution non supporté: " ++ execution_type),
        saved := false }
  else
    { commandRuns := 0, measuredIterations := 0,
      outcome := .error "Impossible d\x27exécuter la commande",
      saved := false }

/-- The fields of the merged results dictionary that
`ParallelExecutor._generate_recommendations` reads (with the defaults its
`.get` calls use for the strategy-specific sub-dictionaries). -/
structure RecInput where
  execution_type : String
  mean : ℚ
  stdev : ℚ
  successful_iterations : Nat
  total_iterations : Nat
  fork_success_rate : ℚ
  thread_efficiency : ℚ
  unique_threads_used : Nat
  isolation_efficiency : ℚ
  cpu_count : Nat
  deriving DecidableEq, Repr

/-- Models `ParallelExecutor._generate_recommendations`, building the list in
source order against the fixed thresholds; ends with the acceptable
performance message when nothing fired. -/
def generate_recommendations (r : RecInput) : List String :=
  let success_rate : ℚ := (r.successful_iterations : ℚ) / (max r.total_iterations 1 : Nat)
  let base : List String :=
    (if success_rate < 0.9 then
      ["Taux d\x27échec élevé - vérifiez la stabilité du code ou les dépendances"] else []) ++
    (if r.stdev > r.mean * 0.3 then
      ["Forte variabilité détectée - considérez plus d\x27itérations pour la stabilité"] else []) ++
    (if r.mean < 0.001 then
      ["Temps d\x27exécution très faible - augmentez la charge de travail pour des mesures plus précises"] else []) ++
    (if r.execution_type = "fork" then
      (if r.mean < 0.01 then
        ["Fork: Temps d\x27exécution très court - le coût de création de processus peut dominer"] else []) ++
      (if r.fork_success_rate < 0.9 then
        ["Fork: Taux d\x27échec élevé - vérifiez la stabilité du code"] else [])
    else if r.execution_type = "thread" then
      (if r.thread_efficiency < 0.5 then
        ["Thread: Faible efficacité - possible contention ou code non thread-safe"] else []) ++
      (if r.unique_threads_used < min r.total_iterations r.cpu_count then
        ["Thread: Sous-utilisation des threads disponibles"] else [])
    else if r.execution_type = "subshell" then
      (if r.isolation_efficiency < 0.8 then
        ["Subshell: Efficacité d\x27isolation faible - considérez l\x27exécution directe"] else [])
    else []) ++
    (if r.mean > 1.0 then
      ["Temps d\x27exécution élevé - considérez l\x27optimisation du code"]
    else if r.mean < 0.001 then
      ["Temps d\x27exécution très faible - les mesures peuvent être imprécises"] else [])
  if base.isEmpty then
    ["Performance acceptable avec la méthode d\x27exécution choisie"]
  else base

/-- The `--test-level` to iteration-count map of `main`
(`iterations_map = ... light 3, medium 5, heavy 10`). -/
def iterations_map : List (String × Nat) :=
  [("light", 3), ("medium", 5), ("heavy", 10)]

/-- The iteration count `main` actually uses.  `argparse` gives
`--iterations` the default 5 and `--test-level` the default `medium`;
`main` then computes `iterations_map.get(args.test_level, args.iterations)`.
`none` models an absent command-line flag. -/
def cliIterations (iterationsArg : Option Nat) (testLevel : Option String) : Nat :=
  let argIterations := iterationsArg.getD 5
  let argTestLevel := testLevel.getD "medium"
  (iterations_map.lookup argTestLevel).getD argIterations

theorem aggStats_values_ne_nil (sqrtA : ℚ → ℚ) (l : List ℚ) :
    (aggStats sqrtA l).values ≠ [] := by
  unfold aggStats
  rcases l with _ | ⟨x, xs⟩ <;> simp

theorem aggStats_values_of_empty (sqrtA : ℚ → ℚ) (l : List ℚ) (h : l = []) :
    (aggStats sqrtA l).values = [0] := by
  subst h; rfl

theorem aggStats_stdev_of_length_one (sqrtA : ℚ → ℚ) (l : List ℚ)
    (h : (aggStats sqrtA l).values.length = 1) :
    (aggStats sqrtA l).stdev = 0 := by
  unfold aggStats at h ⊢
  simp only at h ⊢
  rw [if_neg]
  omega

theorem thread_counts (sqrtA : ℚ → ℚ) (results : List ThreadIterResult) (ttime : ℚ) :
    (analyze_thread_results sqrtA results ttime).successful_iterations
      + (analyze_thread_results sqrtA results ttime).failed_iterations
      = (analyze_thread_results sqrtA results ttime).total_iterations
    ∧ (analyze_thread_results sqrtA results ttime).total_iterations = results.length := by
  have hle := List.length_filter_le (fun r => r.success) results
  unfold analyze_thread_results
  split
  · next h =>
      have : results = [] := by simpa [List.isEmpty_iff] using h
      subst this
      exact ⟨rfl, rfl⟩
  · refine ⟨?_, rfl⟩
    simp only
    omega

/-- C1: for every strategy (fork, thread, subshell) and every requested
iteration count N ≥ 1, the result returned by the executor satisfies
successful_iterations + failed_iterations = total_iterations = N. -/
theorem C1_iteration_totals (N : Nat) (hN : 1 ≤ N) (sqrtA : ℚ → ℚ)
    (fe : List ForkEnv) (hf : fe.length = N)
    (te : List ThreadTask) (ht : te.length = N) (ttime : ℚ)
    (se : List SubshellBeh) (hs : se.length = N) :
    ((execute_with_fork sqrtA fe).successful_iterations
        + (execute_with_fork sqrtA fe).failed_iterations
        = (execute_with_fork sqrtA fe).total_iterations
      ∧ (execute_with_fork sqrtA fe).total_iterations = N)
    ∧ ((execute_with_threads sqrtA te ttime).successful_iterations
        + (execute_with_threads sqrtA te ttime).failed_iterations
        = (execute_with_threads sqrtA te ttime).total_iterations
      ∧ (execute_with_threads sqrtA te ttime).total_iterations = N)
    ∧ ((execute_with_subshells sqrtA se).successful_iterations
        + (execute_with_subshells sqrtA se).failed_iterations
        = (execute_with_subshells sqrtA se).total_iterations
      ∧ (execute_with_subshells sqrtA se).total_iterations = N) := by
  refine ⟨⟨?_, ?_⟩, ?_, ⟨?_, ?_⟩⟩
  · have hle := List.length_filter_le (fun r => r.success) (forkResultsAux 0 fe)
    simp only [execute_with_fork, analyze_fork_results]
    omega
  · simp only [execute_with_fork, analyze_fork_results]
    rw [forkResultsAux_length]; exact hf
  · have h := thread_counts sqrtA (te.map threadIteration) ttime
    have hlen : (te.map threadIteration).length = N := by
      rw [List.length_map]; exact ht
    exact ⟨h.1, by rw [execute_with_threads, h.2, hlen]⟩
  · have hle := List.length_filter_le (fun r => r.success) (subshellResultsAux 0 se)
    simp only [execute_with_subshells, analyze_subshell_results]
    omega
  · simp only [execute_with_subshells, analyze_subshell_results]
    rw [subshellResultsAux_length]; exact hs

/-- Witness for C1 at N = 1 with one concrete environment per strategy. -/
theorem C1_iteration_totals_witness :
    1 ≤ 1
    ∧ ([⟨41, 1, ForkBeh.completed 0⟩] : List ForkEnv).length = 1
    ∧ ([⟨1, 7, 1, ThreadBeh.timedOut⟩] : List ThreadTask).length = 1
    ∧ ([SubshellBeh.timedOut] : List SubshellBeh).length = 1
    ∧ (((execute_with_fork (fun x => x) [⟨41, 1, ForkBeh.completed 0⟩]).successful_iterations
        + (execute_with_fork (fun x => x) [⟨41, 1, ForkBeh.completed 0⟩]).failed_iterations
        = (execute_with_fork (fun x => x) [⟨41, 1, ForkBeh.completed 0⟩]).total_iterations
      ∧ (execute_with_fork (fun x => x) [⟨41, 1, ForkBeh.completed 0⟩]).total_iterations = 1)
    ∧ ((execute_with_threads (fun x => x) [⟨1, 7, 1, ThreadBeh.timedOut⟩] 1).successful_iterations
        + (execute_with_threads (fun x => x) [⟨1, 7, 1, ThreadBeh.timedOut⟩] 1).failed_iterations
        = (execute_with_threads (fun x => x) [⟨1, 7, 1, ThreadBeh.timedOut⟩] 1).total_iterations
      ∧ (execute_with_threads (fun x => x) [⟨1, 7, 1, ThreadBeh.timedOut⟩] 1).total_iterations = 1)
    ∧ ((execute_with_subshells (fun x => x) [SubshellBeh.timedOut]).successful_iterations
        + (execute_with_subshells (fun x => x) [SubshellBeh.timedOut]).failed_iterations
        = (execute_with_subshells (fun x => x) [SubshellBeh.timedOut]).total_iterations
      ∧ (execute_with_subshells (fun x => x) [SubshellBeh.timedOut]).total_iterations = 1)) :=
  ⟨by decide, rfl, rfl, rfl,
    C1_iteration_totals 1 (by decide) (fun x => x)
      [⟨41, 1, ForkBeh.completed 0⟩] rfl
      [⟨1, 7, 1, ThreadBeh.timedOut⟩] rfl 1
      [SubshellBeh.timedOut] rfl⟩

/-- C4: for every result produced by the three analyzers, the
execution_times values list is never empty (it is [0.0] exactly when no
iteration succeeded), and stdev = 0 whenever the values list has a single
element. -/
theorem C4_aggregate_invariants (sqrtA : ℚ → ℚ) (fr : List ForkIterResult)
    (tr : List ThreadIterResult) (ttime : ℚ) (sr : List SubshellIterResult) :
    ((analyze_fork_results sqrtA fr).execution_times.values ≠ []
      ∧ ((fr.filter (·.success)).isEmpty = true →
          (analyze_fork_results sqrtA fr).execution_times.values = [0])
      ∧ ((analyze_fork_results sqrtA fr).execution_times.values.length = 1 →
          (analyze_fork_results sqrtA fr).execution_times.stdev = 0))
    ∧ ((analyze_thread_results sqrtA tr ttime).execution_times.values ≠ []
      ∧ ((tr.filter (·.success)).isEmpty = true →
          (analyze_thread_results sqrtA tr ttime).execution_times.values = [0])
      ∧ ((analyze_thread_results sqrtA tr ttime).execution_times.values.length = 1 →
          (analyze_thread_results sqrtA tr ttime).execution_times.stdev = 0))
    ∧ ((analyze_subshell_results sqrtA sr).execution_times.values ≠ []
      ∧ ((sr.filter (·.success)).isEmpty = true →
          (analyze_subshell_results sqrtA sr).execution_times.values = [0])
      ∧ ((analyze_subshell_results sqrtA sr).execution_times.values.length = 1 →
          (analyze_subshell_results sqrtA sr).execution_times.stdev = 0)) := by
  refine ⟨⟨?_, ?_, ?_⟩, ⟨?_, ?_, ?_⟩, ⟨?_, ?_, ?_⟩⟩
  · exact aggStats_values_ne_nil sqrtA _
  · intro h
    refine aggStats_values_of_empty sqrtA _ ?_
    simp only [List.isEmpty_iff] at h
    simp [h]
  · exact aggStats_stdev_of_length_one sqrtA _
  · unfold analyze_thread_results
    split
    · simp
    · exact aggStats_values_ne_nil sqrtA _
  · intro h
    unfold analyze_thread_results
    split
    · rfl
    · refine aggStats_values_of_empty sqrtA _ ?_
      simp only [List.isEmpty_iff] at h
      simp [h]
  · unfold analyze_thread_results
    split
    · intro _; rfl
    · exact aggStats_stdev_of_length_one sqrtA _
  · exact aggStats_values_ne_nil sqrtA _
  · intro h
    refine aggStats_values_of_empty sqrtA _ ?_
    simp only [List.isEmpty_iff] at h
    simp [h]
  · exact aggStats_stdev_of_length_one sqrtA _

/-- Witness for C4 on concrete all-failed and single-success inputs. -/
theorem C4_aggregate_invariants_witness :
    (([] : List ForkIterResult).filter (·.success)).isEmpty = true
    ∧ (analyze_fork_results (fun x => x) []).execution_times.values = [0]
    ∧ (analyze_thread_results (fun x => x) [] 1).execution_times.values = [0]
    ∧ (analyze_subshell_results (fun x => x) []).execution_times.values = [0] :=
  ⟨by decide,
    (C4_aggregate_invariants (fun x => x) [] [] 1 []).1.2.1 (by decide),
    (C4_aggregate_invariants (fun x => x) [] [] 1 []).2.1.2.1 (by decide),
    (C4_aggregate_invariants (fun x => x) [] [] 1 []).2.2.2.1 (by decide)⟩

/-- C2 counterexample: for the subshell strategy a timed-out iteration is
recorded with return code -1, not the sentinel 124 that the claim demands
for every strategy (source line: the TimeoutExpired branch of
`execute_with_subshells` writes `return_code: -1`). -/
theorem C2_subshell_timeout_counterexample :
    ((execute_with_subshells (fun x => x) [SubshellBeh.timedOut]).subshell_metrics.map
        (fun r => (r.return_code, r.success)) = [(-1, false)])
    ∧ ¬ ((execute_with_subshells (fun x => x) [SubshellBeh.timedOut]).subshell_metrics.map
        (fun r => (r.return_code, r.success)) = [(124, false)]) := by
  constructor
  · rfl
  · intro h
    simp only [execute_with_subshells, analyze_subshell_results] at h
    exact absurd (List.head_eq_of_cons_eq h) (by decide)

/-- C2 (amended): an iteration that exceeds the 10-second ceiling produces
exactly one failed outcome for that iteration and the run continues with
the remaining iterations, with exit status / return code 124 for the fork
and thread strategies, but return code -1 (with error text timeout) for
the subshell strategy. -/
theorem C2_timeout_outcomes (sqrtA : ℚ → ℚ)
    (fe : List ForkEnv) (i : Nat) (e : ForkEnv)
    (hfi : fe[i]? = some e) (hfb : e.beh = ForkBeh.timedOut)
    (te : List ThreadTask) (ttime : ℚ) (j : Nat) (t : ThreadTask)
    (htj : te[j]? = some t) (htb : t.beh = ThreadBeh.timedOut)
    (se : List SubshellBeh) (k : Nat)
    (hsk : se[k]? = some SubshellBeh.timedOut) :
    ((execute_with_fork sqrtA fe).process_metrics.length = fe.length
      ∧ (execute_with_fork sqrtA fe).process_metrics[i]?.map
          (fun r => (r.exit_status, r.success)) = some (124, false))
    ∧ ((execute_with_threads sqrtA te ttime).thread_metrics.length = te.length
      ∧ (execute_with_threads sqrtA te ttime).thread_metrics[j]?.map
          (fun r => (r.return_code, r.success)) = some (124, false))
    ∧ ((execute_with_subshells sqrtA se).subshell_metrics.length = se.length
      ∧ (execute_with_subshells sqrtA se).subshell_metrics[k]?.map
          (fun r => (r.return_code, r.success)) = some (-1, false)) := by
  have hthread : (execute_with_threads sqrtA te ttime).thread_metrics
      = te.map threadIteration := by
    unfold execute_with_threads analyze_thread_results
    split
    · next h =>
        have : te.map threadIteration = [] := by simpa [List.isEmpty_iff] using h
        simpa using this
    · rfl
  refine ⟨⟨?_, ?_⟩, ⟨?_, ?_⟩, ?_, ?_⟩
  · simp only [execute_with_fork, analyze_fork_results]
    exact forkResultsAux_length 0 fe
  · simp only [execute_with_fork, analyze_fork_results]
    rw [forkResultsAux_getElem?, hfi]
    simp [forkIteration, hfb]
  · rw [hthread, List.length_map]
  · rw [hthread, List.getElem?_map, htj]
    simp [threadIteration, htb]
  · simp only [execute_with_subshells, analyze_subshell_results]
    exact subshellResultsAux_length 0 se
  · simp only [execute_with_subshells, analyze_subshell_results]
    rw [subshellResultsAux_getElem?, hsk]
    simp [subshellIteration]

/-- Witness for the amended C2 at one-iteration runs that all time out. -/
theorem C2_timeout_outcomes_witness :
    ([⟨9, 10, ForkBeh.timedOut⟩] : List ForkEnv)[0]? = some ⟨9, 10, ForkBeh.timedOut⟩
    ∧ ([⟨1, 3, 10, ThreadBeh.timedOut⟩] : List ThreadTask)[0]? = some ⟨1, 3, 10, ThreadBeh.timedOut⟩
    ∧ ([SubshellBeh.timedOut] : List SubshellBeh)[0]? = some SubshellBeh.timedOut
    ∧ (((execute_with_fork (fun x => x) [⟨9, 10, ForkBeh.timedOut⟩]).process_metrics.length = 1
      ∧ (execute_with_fork (fun x => x) [⟨9, 10, ForkBeh.timedOut⟩]).process_metrics[0]?.map
          (fun r => (r.exit_status, r.success)) = some (124, false))
    ∧ ((execute_with_threads (fun x => x) [⟨1, 3, 10, ThreadBeh.timedOut⟩] 10).thread_metrics.length = 1
      ∧ (execute_with_threads (fun x => x) [⟨1, 3, 10, ThreadBeh.timedOut⟩] 10).thread_metrics[0]?.map
          (fun r => (r.return_code, r.success)) = some (124, false))
    ∧ ((execute_with_subshells (fun x => x) [SubshellBeh.timedOut]).subshell_metrics.length = 1
      ∧ (execute_with_subshells (fun x => x) [SubshellBeh.timedOut]).subshell_metrics[0]?.map
          (fun r => (r.return_code, r.success)) = some (-1, false))) :=
  ⟨rfl, rfl, rfl,
    C2_timeout_outcomes (fun x => x)
      [⟨9, 10, ForkBeh.timedOut⟩] 0 ⟨9, 10, ForkBeh.timedOut⟩ rfl rfl
      [⟨1, 3, 10, ThreadBeh.timedOut⟩] 10 0 ⟨1, 3, 10, ThreadBeh.timedOut⟩ rfl rfl
      [SubshellBeh.timedOut] 0 rfl⟩

/-- C5: for the thread strategy, actual_parallelism is the sum of the
successful iterations durations divided by the wall-clock time of the run,
it is nonnegative, and it is 0 when no iteration succeeded. -/
theorem C5_actual_parallelism (sqrtA : ℚ → ℚ) (results : List ThreadIterResult)
    (total_time : ℚ) (hpos : 0 < total_time)
    (hnn : ∀ r ∈ results, 0 ≤ r.execution_time) :
    ((analyze_thread_results sqrtA results total_time).concurrency_analysis.actual_parallelism
      = ((results.filter (·.success)).map (·.execution_time)).sum / total_time)
    ∧ 0 ≤ (analyze_thread_results sqrtA results total_time).concurrency_analysis.actual_parallelism
    ∧ ((results.filter (·.success)).isEmpty = true →
        (analyze_thread_results sqrtA results total_time).concurrency_analysis.actual_parallelism
          = 0) := by
  have hsum : 0 ≤ ((results.filter (·.success)).map (·.execution_time)).sum := by
    apply List.sum_nonneg
    intro x hx
    rcases List.mem_map.mp hx with ⟨r, hr, rfl⟩
    exact hnn r (List.mem_of_mem_filter hr)
  have heq : (analyze_thread_results sqrtA results total_time).concurrency_analysis.actual_parallelism
      = ((results.filter (·.success)).map (·.execution_time)).sum / total_time := by
    unfold analyze_thread_results
    split
    · next h =>
        have h0 : results = [] := by simpa [List.isEmpty_iff] using h
        subst h0
        simp
    · next h =>
        by_cases hsucc : (results.filter (·.success)).isEmpty
        · have h1 : results.filter (·.success) = [] := by
            simpa [List.isEmpty_iff] using hsucc
          simp [hsucc, h1]
        · have hne : results.filter (·.success) ≠ [] := by
            simpa [List.isEmpty_iff] using hsucc
          have h2 : ((results.filter (·.success)).map (·.execution_time)).isEmpty = false := by
            simp [List.isEmpty_eq_false, hne]
          simp [hsucc, h2, hpos]
  refine ⟨heq, ?_, ?_⟩
  · rw [heq]
    exact div_nonneg hsum hpos.le
  · intro h
    rw [heq]
    have h1 : results.filter (·.success) = [] := by simpa [List.isEmpty_iff] using h
    simp [h1]

/-- Witness for C5 with a single successful iteration of duration 2 over a
wall clock of 1. -/
theorem C5_actual_parallelism_witness :
    ((0 : ℚ) < 1
      ∧ (∀ r ∈ ([⟨1, 3, 2, 0, true, none, none⟩] : List ThreadIterResult),
          (0 : ℚ) ≤ r.execution_time))
    ∧ (analyze_thread_results (fun x => x)
          ([⟨1, 3, 2, 0, true, none, none⟩] : List ThreadIterResult)
          1).concurrency_analysis.actual_parallelism
        = ((([⟨1, 3, 2, 0, true, none, none⟩] :
              List ThreadIterResult).filter (·.success)).map (·.execution_time)).sum / 1 :=
  ⟨⟨by norm_num, by
      intro r hr
      simp only [List.mem_singleton] at hr
      subst hr
      norm_num⟩,
    (C5_actual_parallelism (fun x => x)
      ([⟨1, 3, 2, 0, true, none, none⟩] : List ThreadIterResult)
      1 (by norm_num)
      (by
        intro r hr
        simp only [List.mem_singleton] at hr
        subst hr
        norm_num)).1⟩

/-- C6: for the thread strategy, thread_efficiency is
min(1, sum of successful durations / (wall-clock time * distinct workers
used)), and it is 0 when no iteration succeeded; the analyzer field is
exactly `calculate_thread_efficiency`. -/
theorem C6_thread_efficiency (sqrtA : ℚ → ℚ) (results : List ThreadIterResult)
    (total_time : ℚ) (hpos : 0 < total_time) :
    (calculate_thread_efficiency results total_time
      = min 1 (((results.filter (·.success)).map (·.execution_time)).sum
          / (total_time * (((results.map (·.thread_id)).dedup).length : ℚ))))
    ∧ ((results.filter (·.success)).isEmpty = true →
        calculate_thread_efficiency results total_time = 0)
    ∧ (analyze_thread_results sqrtA results total_time).concurrency_analysis.thread_efficiency
        = calculate_thread_efficiency results total_time := by
  refine ⟨?_, ?_, ?_⟩
  · unfold calculate_thread_efficiency
    by_cases hsucc : (results.filter (·.success)).isEmpty
    · have h1 : results.filter (·.success) = [] := by
        simpa [List.isEmpty_iff] using hsucc
      rw [if_pos (Or.inl hsucc), h1]
      simp [min_eq_right]
    · have hne : results.filter (·.success) ≠ [] := by
        simpa [List.isEmpty_iff] using hsucc
      have hres : results ≠ [] := by
        intro h0
        exact hne (by simp [h0])
      have hw : 0 < ((results.map (·.thread_id)).dedup).length := by
        rw [List.length_pos]
        intro h0
        rw [List.dedup_eq_nil] at h0
        exact hres (by simpa using h0)
      have hth : (0 : ℚ) < total_time * (((results.map (·.thread_id)).dedup).length : ℚ) := by
        apply mul_pos hpos
        exact_mod_cast hw
      have hcond : ¬((results.filter (·.success)).isEmpty = true ∨ total_time ≤ 0) := by
        simp only [not_or, not_le]
        exact ⟨hsucc, hpos⟩
      rw [if_neg hcond]
      dsimp only
      rw [if_pos hth]
      exact min_comm _ _
  · intro h
    unfold calculate_thread_efficiency
    rw [if_pos (Or.inl h)]
  · unfold analyze_thread_results
    split
    · next h =>
        have h0 : results = [] := by simpa [List.isEmpty_iff] using h
        subst h0
        simp [calculate_thread_efficiency]
    · rfl

/-- Witness for C6 at one successful and one failed iteration on distinct
workers over a wall clock of 2. -/
theorem C6_thread_efficiency_witness :
    ((0 : ℚ) < 2)
    ∧ (calculate_thread_efficiency
        ([⟨1, 3, 1, 0, true, none, none⟩, ⟨2, 4, 1, 1, false, none, none⟩] : List ThreadIterResult) 2
      = min 1 (((([⟨1, 3, 1, 0, true, none, none⟩, ⟨2, 4, 1, 1, false, none, none⟩] :
            List ThreadIterResult).filter (·.success)).map (·.execution_time)).sum
          / (2 * ((((([⟨1, 3, 1, 0, true, none, none⟩, ⟨2, 4, 1, 1, false, none, none⟩] :
            List ThreadIterResult)).map (·.thread_id)).dedup).length : ℚ)))) :=
  ⟨by norm_num,
    (C6_thread_efficiency (fun x => x)
      ([⟨1, 3, 1, 0, true, none, none⟩, ⟨2, 4, 1, 1, false, none, none⟩] : List ThreadIterResult)
      2 (by norm_num)).1⟩

/-- C7: recommendation derivation is a pure function of the merged run
fields; for a run with mean 0.0005, stdev 0 and success rate 1 the list
contains the measurement-noise / workload-too-small message and not the
instability message. -/
theorem C7_recommendation_scenario (r : RecInput)
    (hmean : r.mean = 0.0005) (hstdev : r.stdev = 0)
    (hsucc : r.successful_iterations = r.total_iterations)
    (hpos : 1 ≤ r.total_iterations) :
    ("Temps d\x27exécution très faible - augmentez la charge de travail pour des mesures plus précises"
        ∈ generate_recommendations r)
    ∧ ("Taux d\x27échec élevé - vérifiez la stabilité du code ou les dépendances"
        ∉ generate_recommendations r) := by
  have htne : ((r.total_iterations : ℚ)) ≠ 0 := by
    exact_mod_cast Nat.one_le_iff_ne_zero.mp hpos
  have hrate : ((r.successful_iterations : ℚ) / ((max r.total_iterations 1 : Nat) : ℚ)) = 1 := by
    rw [hsucc, Nat.max_eq_left hpos, div_self htne]
  have h1 : ¬(((r.successful_iterations : ℚ) / ((max r.total_iterations 1 : Nat) : ℚ)) < 0.9) := by
    rw [hrate]; norm_num
  have h2 : ¬(r.stdev > r.mean * 0.3) := by rw [hstdev, hmean]; norm_num
  have h3 : r.mean < 0.001 := by rw [hmean]; norm_num
  have h4 : ¬(r.mean > 1.0) := by rw [hmean]; norm_num
  unfold generate_recommendations
  dsimp only
  rw [if_neg h1, if_neg h2, if_pos h3, if_neg h4, if_pos h3]
  simp only [List.nil_append, List.append_nil]
  have hbase : ∀ l : List String,
      ((["Temps d\x27exécution très faible - augmentez la charge de travail pour des mesures plus précises"]
        ++ l)
        ++ ["Temps d\x27exécution très faible - les mesures peuvent être imprécises"]).isEmpty = false := by
    intro l; rfl
  rw [if_neg (by rw [hbase]; exact Bool.false_ne_true)]
  constructor
  · simp [List.mem_append]
  · intro hmem
    simp only [List.mem_append, List.mem_singleton] at hmem
    rcases hmem with (h | h) | h
    · exact absurd h (by decide)
    · split_ifs at h <;> exact absurd h (by decide)
    · exact absurd h (by decide)

/-- Witness for C7 at a concrete merged-run record. -/
theorem C7_recommendation_scenario_witness :
    ((RecInput.mk "thread" 0.0005 0 5 5 1 1 8 1 8).mean = 0.0005
      ∧ (RecInput.mk "thread" 0.0005 0 5 5 1 1 8 1 8).stdev = 0
      ∧ (RecInput.mk "thread" 0.0005 0 5 5 1 1 8 1 8).successful_iterations
          = (RecInput.mk "thread" 0.0005 0 5 5 1 1 8 1 8).total_iterations
      ∧ 1 ≤ (RecInput.mk "thread" 0.0005 0 5 5 1 1 8 1 8).total_iterations)
    ∧ ("Temps d\x27exécution très faible - augmentez la charge de travail pour des mesures plus précises"
        ∈ generate_recommendations (RecInput.mk "thread" 0.0005 0 5 5 1 1 8 1 8))
    ∧ ("Taux d\x27échec élevé - vérifiez la stabilité du code ou les dépendances"
        ∉ generate_recommendations (RecInput.mk "thread" 0.0005 0 5 5 1 1 8 1 8)) :=
  ⟨⟨rfl, rfl, rfl, by decide⟩,
    C7_recommendation_scenario (RecInput.mk "thread" 0.0005 0 5 5 1 1 8 1 8)
      rfl rfl rfl (by decide)⟩

/-- C3: for a recognized strategy selector, execute aborts with an error
before any measured iteration exactly when the pre-flight run fails with a
file-not-found / OS-level spawn error; a pre-flight timeout is a pass and
the measured run proceeds over all N iterations. -/
theorem C3_preflight_abort (et : String)
    (hvalid : et = "fork" ∨ et = "thread" ∨ et = "subshell")
    (N : Nat) (env : ExecEnv) (sqrtA : ℚ → ℚ) :
    ((ParallelExecutor.execute et N env sqrtA).raised = true
        ↔ env.preflight.isSpawnFailure = true)
    ∧ (env.preflight.isSpawnFailure = true →
        (ParallelExecutor.execute et N env sqrtA).measuredIterations = 0)
    ∧ (env.preflight = PreflightOutcome.timedOut →
        (ParallelExecutor.execute et N env sqrtA).raised = false
        ∧ (ParallelExecutor.execute et N env sqrtA).measuredIterations = N) := by
  have htest : test_command_optimized env.preflight = !env.preflight.isSpawnFailure := by
    cases env.preflight <;> rfl
  unfold ParallelExecutor.execute
  by_cases hsf : env.preflight.isSpawnFailure = true
  · have hp : test_command_optimized env.preflight = false := by
      rw [htest, hsf]
      rfl
    have hcond : ¬(test_command_optimized env.preflight = true) := by
      rw [hp]
      decide
    rw [if_neg hcond]
    refine ⟨⟨fun _ => hsf, fun _ => rfl⟩, fun _ => rfl, ?_⟩
    intro h
    rw [h] at hsf
    exact absurd hsf (by decide)
  · have hsf2 : env.preflight.isSpawnFailure = false := by
      cases h : env.preflight.isSpawnFailure
      · rfl
      · exact absurd h hsf
    rw [htest, hsf2]
    simp only [Bool.not_false, if_true]
    rcases hvalid with h | h | h <;> subst h <;>
      simp [ExecTrace.raised, hsf2]

/-- Witness for C3 with the thread strategy and a pre-flight timeout. -/
theorem C3_preflight_abort_witness :
    ("thread" = "fork" ∨ "thread" = "thread" ∨ "thread" = "subshell")
    ∧ (((ParallelExecutor.execute "thread" 4
          (ExecEnv.mk PreflightOutcome.timedOut [] [] [] 1 []) (fun x => x)).raised = true
        ↔ (ExecEnv.mk PreflightOutcome.timedOut [] [] [] 1 []).preflight.isSpawnFailure = true)
      ∧ ((ExecEnv.mk PreflightOutcome.timedOut [] [] [] 1 []).preflight.isSpawnFailure = true →
          (ParallelExecutor.execute "thread" 4
            (ExecEnv.mk PreflightOutcome.timedOut [] [] [] 1 []) (fun x => x)).measuredIterations = 0)
      ∧ ((ExecEnv.mk PreflightOutcome.timedOut [] [] [] 1 []).preflight = PreflightOutcome.timedOut →
          (ParallelExecutor.execute "thread" 4
            (ExecEnv.mk PreflightOutcome.timedOut [] [] [] 1 []) (fun x => x)).raised = false
          ∧ (ParallelExecutor.execute "thread" 4
              (ExecEnv.mk PreflightOutcome.timedOut [] [] [] 1 []) (fun x => x)).measuredIterations = 4)) :=
  ⟨Or.inr (Or.inl rfl),
    C3_preflight_abort "thread" (Or.inr (Or.inl rfl)) 4
      (ExecEnv.mk PreflightOutcome.timedOut [] [] [] 1 []) (fun x => x)⟩

/-- C9 counterexample: with a runnable command and the unrecognized
selector `parallel`, execute does raise and persists nothing, but the
pre-flight has already executed the resolved command once, so the claim
that no partial run is attempted (command not executed at all) is false. -/
theorem C9_unknown_type_counterexample :
    ¬ ((ParallelExecutor.execute "parallel" 3
          (ExecEnv.mk (PreflightOutcome.completed 0) [] [] [] 1 []) (fun x => x)).raised = true
      ∧ (ParallelExecutor.execute "parallel" 3
          (ExecEnv.mk (PreflightOutcome.completed 0) [] [] [] 1 []) (fun x => x)).commandRuns = 0
      ∧ (ParallelExecutor.execute "parallel" 3
          (ExecEnv.mk (PreflightOutcome.completed 0) [] [] [] 1 []) (fun x => x)).saved = false) := by
  intro h
  have h1 : (ParallelExecutor.execute "parallel" 3
      (ExecEnv.mk (PreflightOutcome.completed 0) [] [] [] 1 []) (fun x => x)).commandRuns = 1 := rfl
  rw [h1] at h
  exact absurd h.2.1 (by decide)

/-- C9 (amended): an unrecognized execution_type raises, produces no
result, persists nothing and runs no measured iteration — but only after
the pre-flight has already executed the resolved command once (when it is
spawnable). -/
theorem C9_unknown_type_raises (et : String)
    (h : ¬(et = "fork" ∨ et = "thread" ∨ et = "subshell"))
    (N : Nat) (env : ExecEnv) (sqrtA : ℚ → ℚ) :
    (ParallelExecutor.execute et N env sqrtA).raised = true
    ∧ (ParallelExecutor.execute et N env sqrtA).saved = false
    ∧ (ParallelExecutor.execute et N env sqrtA).measuredIterations = 0
    ∧ (test_command_optimized env.preflight = true →
        (ParallelExecutor.execute et N env sqrtA).commandRuns = 1) := by
  push_neg at h
  obtain ⟨h1, h2, h3⟩ := h
  unfold ParallelExecutor.execute
  by_cases hp : test_command_optimized env.preflight = true
  · rw [if_pos hp, if_neg h1, if_neg h2, if_neg h3]
    exact ⟨rfl, rfl, rfl, fun _ => rfl⟩
  · rw [if_neg hp]
    refine ⟨rfl, rfl, rfl, fun hc => absurd hc hp⟩

/-- Witness for the amended C9 at the selector `parallel`. -/
theorem C9_unknown_type_raises_witness :
    (¬("parallel" = "fork" ∨ "parallel" = "thread" ∨ "parallel" = "subshell"))
    ∧ ((ParallelExecutor.execute "parallel" 2
          (ExecEnv.mk (PreflightOutcome.completed 0) [] [] [] 1 []) (fun x => x)).raised = true
      ∧ (ParallelExecutor.execute "parallel" 2
          (ExecEnv.mk (PreflightOutcome.completed 0) [] [] [] 1 []) (fun x => x)).saved = false
      ∧ (ParallelExecutor.execute "parallel" 2
          (ExecEnv.mk (PreflightOutcome.completed 0) [] [] [] 1 []) (fun x => x)).measuredIterations = 0
      ∧ (test_command_optimized (ExecEnv.mk (PreflightOutcome.completed 0) [] [] [] 1 []).preflight = true →
          (ParallelExecutor.execute "parallel" 2
            (ExecEnv.mk (PreflightOutcome.completed 0) [] [] [] 1 []) (fun x => x)).commandRuns = 1)) :=
  ⟨by decide,
    C9_unknown_type_raises "parallel" (by decide) 2
      (ExecEnv.mk (PreflightOutcome.completed 0) [] [] [] 1 []) (fun x => x)⟩

/-- C10: for the thread strategy with iterations > 1 and a passing
pre-flight, execute runs one extra unmeasured warm-up pass before the
measured run (the command is executed N + 2 times in total, strictly more
than N), while the returned result is exactly the analysis of the measured
pass and does not depend on the warm-up environment. -/
theorem C10_thread_warmup (N : Nat) (hN : 1 < N) (env : ExecEnv)
    (hpf : test_command_optimized env.preflight = true) (sqrtA : ℚ → ℚ) :
    (ParallelExecutor.execute "thread" N env sqrtA).commandRuns = N + 2
    ∧ N < (ParallelExecutor.execute "thread" N env sqrtA).commandRuns
    ∧ (ParallelExecutor.execute "thread" N env sqrtA).outcome
        = Except.ok (StrategyOutput.thread
            (execute_with_threads sqrtA env.threadTasks env.threadTotalTime)) := by
  unfold ParallelExecutor.execute
  rw [if_pos hpf]
  have hne : ¬(("thread" : String) = "fork") := by decide
  rw [if_neg hne, if_pos rfl]
  dsimp only
  rw [if_pos hN]
  refine ⟨by omega, by omega, rfl⟩

/-- Witness for C10 at N = 2 with a passing pre-flight and a nonempty
warm-up environment that the result provably ignores. -/
theorem C10_thread_warmup_witness :
    1 < 2
    ∧ test_command_optimized
        (ExecEnv.mk (PreflightOutcome.completed 0) [⟨1, 9, 1, ThreadBeh.timedOut⟩]
          [] [⟨1, 5, 1, ThreadBeh.completed 0 ""⟩, ⟨2, 6, 1, ThreadBeh.completed 0 ""⟩] 2 []).preflight
        = true
    ∧ ((ParallelExecutor.execute "thread" 2
        (ExecEnv.mk (PreflightOutcome.completed 0) [⟨1, 9, 1, ThreadBeh.timedOut⟩]
          [] [⟨1, 5, 1, ThreadBeh.completed 0 ""⟩, ⟨2, 6, 1, ThreadBeh.completed 0 ""⟩] 2 [])
        (fun x => x)).commandRuns = 2 + 2
      ∧ 2 < (ParallelExecutor.execute "thread" 2
        (ExecEnv.mk (PreflightOutcome.completed 0) [⟨1, 9, 1, ThreadBeh.timedOut⟩]
          [] [⟨1, 5, 1, ThreadBeh.completed 0 ""⟩, ⟨2, 6, 1, ThreadBeh.completed 0 ""⟩] 2 [])
        (fun x => x)).commandRuns
      ∧ (ParallelExecutor.execute "thread" 2
        (ExecEnv.mk (PreflightOutcome.completed 0) [⟨1, 9, 1, ThreadBeh.timedOut⟩]
          [] [⟨1, 5, 1, ThreadBeh.completed 0 ""⟩, ⟨2, 6, 1, ThreadBeh.completed 0 ""⟩] 2 [])
        (fun x => x)).outcome
        = Except.ok (StrategyOutput.thread
            (execute_with_threads (fun x => x)
              [⟨1, 5, 1, ThreadBeh.completed 0 ""⟩, ⟨2, 6, 1, ThreadBeh.completed 0 ""⟩] 2))) :=
  ⟨by decide, rfl,
    C10_thread_warmup 2 (by decide)
      (ExecEnv.mk (PreflightOutcome.completed 0) [⟨1, 9, 1, ThreadBeh.timedOut⟩]
        [] [⟨1, 5, 1, ThreadBeh.completed 0 ""⟩, ⟨2, 6, 1, ThreadBeh.completed 0 ""⟩] 2 [])
      rfl (fun x => x)⟩

/-- C8: the code always takes the iteration count from the test-level map
because argparse gives test-level the default `medium`; evaluating the CLI
iteration computation at `--iterations 7` with no `--test-level` yields 5,
not 7 as the claim states, so `--iterations` is dead. -/
theorem C8_iterations_always_overridden :
    cliIterations (some 7) none = 5
    ∧ cliIterations (some 7) none ≠ 7
    ∧ cliIterations none none = 5
    ∧ cliIterations (some 7) (some "light") = 3
    ∧ cliIterations (some 7) (some "heavy") = 10 := by
  refine ⟨rfl, by decide, rfl, rfl, rfl⟩
